import Mathlib

/-!
Shallow embedding of the CMS backend in `src/cms/server.js`.

The embedding models the publish pipeline of the server: slug derivation,
the `POST /cms/posts` handler (auth gate, input validation, database insert
with a UNIQUE slug column, Hugo content-file write), the `GET /cms/posts`
listing (`ORDER BY date DESC`), the `POST /cms/login` handler behind the two
`express-rate-limit` buckets, and the `requireAuth` session gate.

Modelling conventions:
- the nondeterministic clock value `new Date().toISOString()` is a `date`
  parameter of the handler;
- success or failure of `fs.writeFileSync` is an oracle boolean `fsOk`;
- `bcrypt.compare` is an abstract boolean function parameter;
- JavaScript string lower-casing is modelled on the ASCII range, which is
  exact for every character that can survive the `[^a-z0-9]` filter used by
  the slug expression;
- the SQLite database is a list of rows; the `slug TEXT UNIQUE` constraint
  makes `INSERT` fail exactly when the slug is already present;
- the filesystem is an association list from paths to file contents.
-/

namespace WrongCMS

/-- ASCII lower-casing of a character, as `String.prototype.toLowerCase`
acts on the ASCII range. -/
def lowerChar (c : Char) : Char :=
  if 65 ≤ c.toNat ∧ c.toNat ≤ 90 then Char.ofNat (c.toNat + 32) else c

/-- Membership in the character class `[a-z0-9]` of the slug regex. -/
def isSlugChar (c : Char) : Bool :=
  (97 ≤ c.toNat && c.toNat ≤ 122) || (48 ≤ c.toNat && c.toNat ≤ 57)

/-- The action of `.replace(/[^a-z0-9]+/g, '-')`: every maximal run of
characters outside `[a-z0-9]` becomes a single hyphen.  The boolean flag
records whether the previous character belonged to such a run. -/
def replaceRuns : List Char → Bool → List Char
  | [], _ => []
  | c :: cs, inRun =>
    if isSlugChar c then c :: replaceRuns cs false
    else if inRun then replaceRuns cs inRun
    else '-' :: replaceRuns cs true

/-- The slug expression of `server.js` line 148:
`title.toLowerCase().replace(/[^a-z0-9]+/g, '-')`. -/
def deriveSlug (title : String) : String :=
  String.mk (replaceRuns (title.data.map lowerChar) false)

/-- The Hugo file body built at `server.js` lines 160-166: a front-matter
block with the raw title interpolated between double quotes, the ISO date,
`draft: false`, then a blank line and the raw content. -/
def hugoContent (title date content : String) : String :=
  "---\ntitle: \"" ++ title ++ "\"\ndate: " ++ date ++
    "\ndraft: false\n---\n\n" ++ content

/-- The path `content/posts/<slug>.md` used by the file write
(`server.js` line 168, relative to the working directory). -/
def postPath (slug : String) : String :=
  "content/posts/" ++ slug ++ ".md"

/-- A row of the `posts` table (`id INTEGER PRIMARY KEY, title, content,
date, slug TEXT UNIQUE`). -/
structure PostRow where
  id : Nat
  title : String
  content : String
  date : String
  slug : String
deriving DecidableEq, Repr

/-- Server-side mutable state touched by the post handlers: the `posts`
table, the next auto-assigned row id, and the content directory. -/
structure ServerState where
  posts : List PostRow
  nextId : Nat
  files : List (String × String)
deriving DecidableEq, Repr

/-- The state of a fresh database and an empty content directory. -/
def emptyState : ServerState := ⟨[], 1, []⟩

/-- JavaScript truthiness of an optional request-body string field:
`!x` holds when the field is absent or the empty string. -/
def truthy : Option String → Bool
  | none => false
  | some s => !(s == "")

/-- Whether some row of the `posts` table already carries `s` as slug;
the `slug TEXT UNIQUE` constraint rejects an insert exactly in that case. -/
def hasSlug (st : ServerState) (s : String) : Bool :=
  st.posts.any (fun p => p.slug == s)

/-- Write (create or overwrite) a file at path `p`. -/
def setFile : List (String × String) → String → String → List (String × String)
  | [], p, c => [(p, c)]
  | (q, d) :: rest, p, c =>
    if q == p then (p, c) :: rest else (q, d) :: setFile rest p c

/-- Read the file at path `p`, if present. -/
def getFile : List (String × String) → String → Option String
  | [], _ => none
  | (q, d) :: rest, p => if q == p then some d else getFile rest p

/-- Observable response of the `POST /cms/posts` handler. -/
inductive CreateResponse where
  | redirect (loc : String)
  | err (status : Nat) (msg : String)
  | created (id : Nat) (slug : String)
deriving DecidableEq, Repr

/-- Whether a response is an HTTP client error (4xx), the class the spec
assigns to the `Conflict` outcome. -/
def isClientError : CreateResponse → Bool
  | .err status _ => 400 ≤ status && status < 500
  | _ => false

/-- The `POST /cms/posts` handler (`server.js` lines 140-178).

`auth` is whether `req.session.userId` is set (the `requireAuth` gate),
`title` and `content` are the body fields, `date` the value of
`new Date().toISOString()`, and `fsOk` whether the `fs` calls succeed. -/
def createPost (auth : Bool) (title content : Option String) (date : String)
    (fsOk : Bool) (st : ServerState) : CreateResponse × ServerState :=
  if !auth then (.redirect "/cms/login", st)
  else if !(truthy title && truthy content) then
    (.err 400 "Title and content are required", st)
  else
    let t := title.getD ""
    let c := content.getD ""
    let slug := deriveSlug t
    if hasSlug st slug then (.err 500 "Database error", st)
    else
      let row : PostRow := ⟨st.nextId, t, c, date, slug⟩
      let st1 : ServerState := ⟨st.posts ++ [row], st.nextId + 1, st.files⟩
      if fsOk then
        (.created st.nextId slug,
          ⟨st1.posts, st1.nextId, setFile st.files (postPath slug) (hugoContent t date c)⟩)
      else (.err 500 "Error creating post file", st1)

/-- A row of the listing query `SELECT id, title, date, slug FROM posts`. -/
structure PostSummary where
  id : Nat
  title : String
  date : String
  slug : String
deriving DecidableEq, Repr

/-- Projection of a stored row onto the listed columns. -/
def summarize (p : PostRow) : PostSummary :=
  ⟨p.id, p.title, p.date, p.slug⟩

/-- The comparison realised by `ORDER BY date DESC`: a row sorts before
another when its date is at least as large (SQLite TEXT comparison,
lexicographic on the ISO strings). -/
def dateDesc (a b : PostSummary) : Prop := b.date ≤ a.date

instance : DecidableRel dateDesc := fun a b => by
  unfold dateDesc; infer_instance

instance : IsTotal PostSummary dateDesc :=
  ⟨fun a b => le_total b.date a.date⟩

instance : IsTrans PostSummary dateDesc :=
  ⟨fun _ _ _ h1 h2 => le_trans h2 h1⟩

/-- The rows returned by `GET /cms/posts`: all rows, ordered by date
descending. -/
def listing (st : ServerState) : List PostSummary :=
  List.insertionSort dateDesc (st.posts.map summarize)

/-- Observable response of `GET /cms/posts`. -/
inductive PostsResponse where
  | redirect (loc : String)
  | ok (rows : List PostSummary)
deriving DecidableEq, Repr

/-- The `GET /cms/posts` handler (`server.js` lines 130-138) behind
`requireAuth`. -/
def getPosts (auth : Bool) (st : ServerState) : PostsResponse :=
  if !auth then .redirect "/cms/login" else .ok (listing st)

/-- Observable response of `GET /cms/dashboard`. -/
inductive PageResponse where
  | redirect (loc : String)
  | page
deriving DecidableEq, Repr

/-- The `GET /cms/dashboard` handler behind `requireAuth`
(`server.js` lines 126-128). -/
def getDashboard (auth : Bool) : PageResponse :=
  if !auth then .redirect "/cms/login" else .page

/-- A row of the `users` table; `password` holds the bcrypt hash. -/
structure UserRow where
  id : Nat
  username : String
  password : String
deriving DecidableEq, Repr

/-- Window length of the general `/cms/` limiter: 15 minutes. -/
def generalWindowMs : Nat := 15 * 60 * 1000

/-- Cap of the general `/cms/` limiter: 100 requests per window. -/
def generalMax : Nat := 100

/-- Window length of the `/cms/login` limiter: 60 minutes. -/
def loginWindowMs : Nat := 60 * 60 * 1000

/-- Cap of the `/cms/login` limiter: 5 requests per window. -/
def loginMax : Nat := 5

/-- Per-client hit counters of the two rate-limit buckets within their
current windows. -/
structure LimitState where
  general : Nat
  login : Nat
deriving DecidableEq, Repr

/-- Counters of a client that has made no request in the current windows. -/
def freshLimits : LimitState := ⟨0, 0⟩

/-- Observable response of `POST /cms/login`. -/
inductive LoginResponse where
  | tooMany
  | redirect (loc : String)
deriving DecidableEq, Repr

/-- Everything a `POST /cms/login` request produces: the response, the
updated limiter counters, whether the `users` table was queried, and the
session user id stored by the request (if any). -/
structure LoginOutcome where
  response : LoginResponse
  limits : LimitState
  lookupDone : Bool
  session : Option Nat
deriving DecidableEq, Repr

/-- One `POST /cms/login` request from a single client
(`server.js` lines 33-44 and 98-119).

The request first passes the general `/cms/` limiter, then the
`/cms/login` limiter — each increments its hit counter and rejects with
HTTP 429 when the counter exceeds its cap — and only then reaches the
handler, which looks up the username and compares the password hash with
`bc` (the `bcrypt.compare` oracle).  Both an unknown username and a hash
mismatch answer with the same redirect. -/
def loginRequest (users : List UserRow) (bc : String → String → Bool)
    (username password : String) (ls : LimitState) : LoginOutcome :=
  let g := ls.general + 1
  if generalMax < g then ⟨.tooMany, ⟨g, ls.login⟩, false, none⟩
  else
    let l := ls.login + 1
    if loginMax < l then ⟨.tooMany, ⟨g, l⟩, false, none⟩
    else
      match users.find? (fun u => u.username == username) with
      | none => ⟨.redirect "/cms/login?error=1", ⟨g, l⟩, true, none⟩
      | some u =>
        if bc password u.password then
          ⟨.redirect "/cms/dashboard", ⟨g, l⟩, true, some u.id⟩
        else ⟨.redirect "/cms/login?error=1", ⟨g, l⟩, true, none⟩

/-- Limiter counters after `n` consecutive login requests by the same
client within one window, starting from fresh counters. -/
def limitsAfter (users : List UserRow) (bc : String → String → Bool)
    (username password : String) : Nat → LimitState
  | 0 => freshLimits
  | n + 1 =>
    (loginRequest users bc username password
      (limitsAfter users bc username password n)).limits

/-- Split a character list at its first newline: the line before it and
the remainder after it. -/
def splitLine : List Char → Option (List Char × List Char)
  | [] => none
  | c :: cs =>
    if c = '\n' then some ([], cs)
    else
      match splitLine cs with
      | some (l, r) => some (c :: l, r)
      | none => none

/-- Drop an expected leading character sequence, or fail. -/
def afterLead : List Char → List Char → Option (List Char)
  | [], l => some l
  | _ :: _, [] => none
  | p :: ps, c :: cs => if p = c then afterLead ps cs else none

/-- Parse the file layout claimed for published posts: a `---` line, then
`title: `, `date: ` and `draft: ` lines, a closing `---` line, a blank
line, and the body.  Returns the raw title value, date value, draft value
and body. -/
def parseFM (l : List Char) : Option (String × String × String × String) :=
  (afterLead "---\n".data l).bind fun l0 =>
  (splitLine l0).bind fun p1 =>
  (afterLead "title: ".data p1.1).bind fun tv =>
  (splitLine p1.2).bind fun p2 =>
  (afterLead "date: ".data p2.1).bind fun dv =>
  (splitLine p2.2).bind fun p3 =>
  (afterLead "draft: ".data p3.1).bind fun rv =>
  (afterLead "---\n".data p3.2).bind fun l1 =>
  (afterLead "\n".data l1).map fun body =>
  (String.mk tv, String.mk dv, String.mk rv, String.mk body)

/-- Tail of a well-formed double-quoted scalar: some characters other than
`"` followed by a final closing `"`. -/
def quotedTail : List Char → Bool
  | [] => false
  | [c] => c = '"'
  | c :: rest => !(c = '"') && quotedTail rest

/-- A well-formed double-quoted string value: `"`, an interior free of
`"`, and a closing `"`. -/
def isQuotedStr (s : String) : Bool :=
  match s.data with
  | c :: rest => c = '"' && quotedTail rest
  | _ => false

/-- Shape check for `Date.prototype.toISOString` output,
`YYYY-MM-DDThh:mm:ss.mmmZ`. -/
def isIsoDate (s : String) : Bool :=
  match s.data with
  | [y1, y2, y3, y4, s1, m1, m2, s2, d1, d2, t1, h1, h2, s3, i1, i2, s4,
     e1, e2, s5, f1, f2, f3, z1] =>
    y1.isDigit && y2.isDigit && y3.isDigit && y4.isDigit && s1 = '-' &&
    m1.isDigit && m2.isDigit && s2 = '-' && d1.isDigit && d2.isDigit &&
    t1 = 'T' && h1.isDigit && h2.isDigit && s3 = ':' && i1.isDigit &&
    i2.isDigit && s4 = ':' && e1.isDigit && e2.isDigit && s5 = '.' &&
    f1.isDigit && f2.isDigit && f3.isDigit && z1 = 'Z'
  | _ => false

/-- Whether a character sequence avoids two adjacent hyphens. -/
def noDouble : List Char → Bool
  | a :: b :: rest => !((a == '-') && (b == '-')) && noDouble (b :: rest)
  | _ => true

/-- Whether every character of a string lies in the slug alphabet
`[a-z0-9-]`. -/
def slugOk (s : String) : Bool :=
  s.data.all (fun c => isSlugChar c || (c == '-'))

/-- Whether a string is free of double-quote characters. -/
def noQuote (s : String) : Bool := s.data.all (fun c => !(c = '"'))

/-- Whether a string is free of newline characters. -/
def noNewline (s : String) : Bool := s.data.all (fun c => !(c = '\n'))

/-- The file format claimed for a published post: a delimited front-matter
block whose keys are exactly `title` (a quoted string carrying the post
title), `date` (the ISO-8601 creation date), and `draft` (always `false`),
followed by a blank line and the raw post content. -/
def claimedFormat (file title date content : String) : Bool :=
  match parseFM file.data with
  | some (tv, dv, rv, body) =>
    isQuotedStr tv && (tv == "\"" ++ title ++ "\"") && (dv == date) &&
    isIsoDate dv && (rv == "false") && (body == content)
  | none => false

/-! ### Helper lemmas about slug derivation -/

theorem isSlugChar_ne_hyphen {c : Char} (h : isSlugChar c = true) :
    (c == '-') = false := by
  rcases Bool.eq_false_or_eq_true (c == '-') with ht | hf
  · exfalso
    have : c = '-' := by simpa using ht
    subst this
    simp [isSlugChar] at h
  · exact hf

theorem replaceRuns_slugOk : ∀ (l : List Char) (b : Bool),
    (replaceRuns l b).all (fun c => isSlugChar c || (c == '-')) = true := by
  intro l
  induction l with
  | nil => intro b; simp [replaceRuns]
  | cons a l ih =>
    intro b
    by_cases ha : isSlugChar a = true
    · simp [replaceRuns, ha, ih false]
    · simp only [Bool.not_eq_true] at ha
      by_cases hb : b = true
      · simpa [replaceRuns, ha, hb] using ih true
      · simp only [Bool.not_eq_true] at hb
        simp [replaceRuns, ha, hb, ih true]

theorem replaceRuns_head : ∀ (l : List Char) (c : Char) (cs : List Char),
    replaceRuns l true = c :: cs → isSlugChar c = true := by
  intro l
  induction l with
  | nil => intro c cs h; simp [replaceRuns] at h
  | cons a l ih =>
    intro c cs h
    by_cases ha : isSlugChar a = true
    · rw [replaceRuns, if_pos ha] at h
      cases h
      exact ha
    · simp only [Bool.not_eq_true] at ha
      rw [replaceRuns, if_neg (by simp [ha]), if_pos rfl] at h
      exact ih c cs h

theorem noDouble_cons {a : Char} {xs : List Char}
    (h1 : (a == '-') = false ∨ ∀ y ys, xs = y :: ys → (y == '-') = false)
    (h2 : noDouble xs = true) : noDouble (a :: xs) = true := by
  cases xs with
  | nil => rfl
  | cons y ys =>
    have hy : ((a == '-') && (y == '-')) = false := by
      rcases h1 with ha | hy
      · simp [ha]
      · simp [hy y ys rfl]
    simp [noDouble, hy, h2]

theorem replaceRuns_noDouble : ∀ (l : List Char) (b : Bool),
    noDouble (replaceRuns l b) = true := by
  intro l
  induction l with
  | nil => intro b; simp [replaceRuns, noDouble]
  | cons a l ih =>
    intro b
    by_cases ha : isSlugChar a = true
    · rw [replaceRuns, if_pos ha]
      exact noDouble_cons (Or.inl (isSlugChar_ne_hyphen ha)) (ih false)
    · simp only [Bool.not_eq_true] at ha
      cases b with
      | true =>
        rw [replaceRuns, if_neg (by simp [ha]), if_pos rfl]
        exact ih true
      | false =>
        rw [replaceRuns, if_neg (by simp [ha]), if_neg (by simp)]
        refine noDouble_cons (Or.inr ?_) (ih true)
        intro y ys hy
        exact isSlugChar_ne_hyphen (replaceRuns_head l y ys hy)

theorem deriveSlug_slugOk (title : String) : slugOk (deriveSlug title) = true :=
  replaceRuns_slugOk (title.data.map lowerChar) false

theorem deriveSlug_noDouble (title : String) :
    noDouble (deriveSlug title).data = true :=
  replaceRuns_noDouble (title.data.map lowerChar) false

/-! ### Helper lemmas about the filesystem model -/

theorem getFile_setFile (fs : List (String × String)) (p c : String) :
    getFile (setFile fs p c) p = some c := by
  induction fs with
  | nil => simp [setFile, getFile]
  | cons hd tl ih =>
    by_cases h : (hd.1 == p) = true
    · simp [setFile, h, getFile]
    · simp only [Bool.not_eq_true] at h
      simpa [setFile, h, getFile] using ih

/-! ### Helper lemmas about the front-matter layout -/

theorem noNewline_spec {s : String} (h : noNewline s = true) : '\n' ∉ s.data := by
  intro hm
  have := List.all_eq_true.mp h _ hm
  simp at this

theorem noQuote_spec {s : String} (h : noQuote s = true) :
    ∀ x ∈ s.data, x ≠ '"' := by
  intro x hx
  have := List.all_eq_true.mp h _ hx
  simpa using this

theorem afterLead_cat : ∀ (p rest : List Char), afterLead p (p ++ rest) = some rest := by
  intro p
  induction p with
  | nil => intro rest; rfl
  | cons a p ih => intro rest; simpa [afterLead] using ih rest

theorem splitLine_append : ∀ (l r : List Char), '\n' ∉ l →
    splitLine (l ++ r) = (splitLine r).map fun q => (l ++ q.1, q.2) := by
  intro l
  induction l with
  | nil =>
    intro r _
    cases h : splitLine r with
    | none => simp [h]
    | some q => simp [h]
  | cons a l ih =>
    intro r hm
    have ha : a ≠ '\n' := fun h => hm (h ▸ List.mem_cons_self a l)
    have hl : '\n' ∉ l := fun h => hm (List.mem_cons_of_mem a h)
    rw [List.cons_append, splitLine, if_neg ha, ih r hl]
    cases h : splitLine r with
    | none => simp
    | some q => simp

theorem quotedTail_cons {a : Char} {l : List Char} (h : l ≠ []) :
    quotedTail (a :: l) = (!(a = '"') && quotedTail l) := by
  cases l with
  | nil => exact absurd rfl h
  | cons b bs => rfl

theorem quotedTail_append : ∀ (l : List Char), (∀ x ∈ l, x ≠ '"') →
    quotedTail (l ++ ['"']) = true := by
  intro l
  induction l with
  | nil => simp [quotedTail]
  | cons a l ih =>
    intro h
    have ha : a ≠ '"' := h a (List.mem_cons_self a l)
    rw [List.cons_append, quotedTail_cons (by simp)]
    simp [ha, ih (fun x hx => h x (List.mem_cons_of_mem a hx))]

theorem isQuotedStr_quote (t : String) (h : noQuote t = true) :
    isQuotedStr ("\"" ++ t ++ "\"") = true := by
  have hdata : ("\"" ++ t ++ "\"").data = '"' :: (t.data ++ ['"']) := by
    simp [String.data_append]
  rw [isQuotedStr, hdata]
  simp [quotedTail_append t.data (noQuote_spec h)]

theorem parseFM_hugo (t d c : String)
    (ht : noNewline t = true) (hd : noNewline d = true) :
    parseFM (hugoContent t d c).data =
      some ("\"" ++ t ++ "\"", d, "false", c) := by
  have ht' : '\n' ∉ t.data := noNewline_spec ht
  have hd' : '\n' ∉ d.data := noNewline_spec hd
  have hdata0 : (hugoContent t d c).data =
      '-' :: '-' :: '-' :: '\n' :: 't' :: 'i' :: 't' :: 'l' :: 'e' :: ':' :: ' ' :: '"' ::
        ((((t.data ++ ['"', '\n', 'd', 'a', 't', 'e', ':', ' ']) ++ d.data) ++
          ['\n', 'd', 'r', 'a', 'f', 't', ':', ' ', 'f', 'a', 'l', 's', 'e', '\n',
            '-', '-', '-', '\n', '\n']) ++ c.data) := rfl
  have hdata : (hugoContent t d c).data =
      '-' :: '-' :: '-' :: '\n' :: 't' :: 'i' :: 't' :: 'l' :: 'e' :: ':' :: ' ' :: '"' ::
        (t.data ++
          '"' :: '\n' :: 'd' :: 'a' :: 't' :: 'e' :: ':' :: ' ' ::
            (d.data ++
              '\n' :: 'd' :: 'r' :: 'a' :: 'f' :: 't' :: ':' :: ' ' ::
                'f' :: 'a' :: 'l' :: 's' :: 'e' :: '\n' :: '-' :: '-' :: '-' :: '\n' :: '\n' ::
                  c.data)) := by
    rw [hdata0]
    simp [List.append_assoc]
  have hsplit1 : splitLine (t.data ++
      '"' :: '\n' :: 'd' :: 'a' :: 't' :: 'e' :: ':' :: ' ' ::
        (d.data ++
          '\n' :: 'd' :: 'r' :: 'a' :: 'f' :: 't' :: ':' :: ' ' ::
            'f' :: 'a' :: 'l' :: 's' :: 'e' :: '\n' :: '-' :: '-' :: '-' :: '\n' :: '\n' ::
              c.data)) =
      some (t.data ++ ['"'],
        'd' :: 'a' :: 't' :: 'e' :: ':' :: ' ' ::
          (d.data ++
            '\n' :: 'd' :: 'r' :: 'a' :: 'f' :: 't' :: ':' :: ' ' ::
              'f' :: 'a' :: 'l' :: 's' :: 'e' :: '\n' :: '-' :: '-' :: '-' :: '\n' :: '\n' ::
                c.data)) := by
    rw [splitLine_append _ _ ht']
    simp [splitLine]
  have hsplit2 : splitLine (d.data ++
      '\n' :: 'd' :: 'r' :: 'a' :: 'f' :: 't' :: ':' :: ' ' ::
        'f' :: 'a' :: 'l' :: 's' :: 'e' :: '\n' :: '-' :: '-' :: '-' :: '\n' :: '\n' ::
          c.data) =
      some (d.data,
        'd' :: 'r' :: 'a' :: 'f' :: 't' :: ':' :: ' ' ::
          'f' :: 'a' :: 'l' :: 's' :: 'e' :: '\n' :: '-' :: '-' :: '-' :: '\n' :: '\n' ::
            c.data) := by
    rw [splitLine_append _ _ hd']
    simp [splitLine]
  have hq : String.mk ('"' :: (t.data ++ ['"'])) = "\"" ++ t ++ "\"" := rfl
  have hdd : String.mk d.data = d := rfl
  have hcc : String.mk c.data = c := rfl
  rw [parseFM, hdata]
  simp [afterLead, splitLine, hsplit1, hsplit2, hq, hdd, hcc]

/-! ### Helper lemmas about the handlers -/

theorem createPost_success (title body date : String) (st : ServerState)
    (ht : truthy (some title) = true) (hb : truthy (some body) = true)
    (hs : hasSlug st (deriveSlug title) = false) :
    createPost true (some title) (some body) date true st =
      (.created st.nextId (deriveSlug title),
        ⟨st.posts ++ [⟨st.nextId, title, body, date, deriveSlug title⟩],
          st.nextId + 1,
          setFile st.files (postPath (deriveSlug title)) (hugoContent title date body)⟩) := by
  simp [createPost, ht, hb, hs]

theorem createPost_fsFail (title body date : String) (st : ServerState)
    (ht : truthy (some title) = true) (hb : truthy (some body) = true)
    (hs : hasSlug st (deriveSlug title) = false) :
    createPost true (some title) (some body) date false st =
      (.err 500 "Error creating post file",
        ⟨st.posts ++ [⟨st.nextId, title, body, date, deriveSlug title⟩],
          st.nextId + 1, st.files⟩) := by
  simp [createPost, ht, hb, hs]

theorem listing_mem_last (posts : List PostRow) (row : PostRow) (n : Nat)
    (fs : List (String × String)) :
    summarize row ∈ listing ⟨posts ++ [row], n, fs⟩ :=
  (List.perm_insertionSort dateDesc _).mem_iff.mpr
    (List.mem_map_of_mem summarize
      (List.mem_append_right _ (List.mem_singleton.mpr rfl)))

theorem loginStep (users : List UserRow) (bc : String → String → Bool)
    (u p : String) (ls : LimitState)
    (hg : ls.general < generalMax) (hl : ls.login < loginMax) :
    (loginRequest users bc u p ls).limits = ⟨ls.general + 1, ls.login + 1⟩ ∧
    (loginRequest users bc u p ls).response ≠ .tooMany := by
  have hg' : ¬ generalMax < ls.general + 1 := by omega
  have hl' : ¬ loginMax < ls.login + 1 := by omega
  cases hfind : users.find? (fun u2 => u2.username == u) with
  | none => simp [loginRequest, hg', hl', hfind]
  | some usr =>
    cases hbc : bc p usr.password with
    | false => simp [loginRequest, hg', hl', hfind, hbc]
    | true => simp [loginRequest, hg', hl', hfind, hbc]

/-! ### Claim theorems -/

/-- C1: when the database insert succeeds but the content-file write fails,
the inserted row remains committed (no rollback), the handler reports a
500 failure to the client, the content directory is untouched, and the new
post appears in subsequent listings. -/
theorem c1_no_rollback (title body date : String) (st : ServerState)
    (ht : truthy (some title) = true) (hb : truthy (some body) = true)
    (hs : hasSlug st (deriveSlug title) = false) :
    (createPost true (some title) (some body) date false st).1 =
      .err 500 "Error creating post file" ∧
    (createPost true (some title) (some body) date false st).2.posts =
      st.posts ++ [⟨st.nextId, title, body, date, deriveSlug title⟩] ∧
    (createPost true (some title) (some body) date false st).2.files = st.files ∧
    summarize ⟨st.nextId, title, body, date, deriveSlug title⟩ ∈
      listing (createPost true (some title) (some body) date false st).2 := by
  rw [createPost_fsFail title body date st ht hb hs]
  exact ⟨rfl, rfl, rfl, listing_mem_last _ _ _ _⟩

/-- Witness for C1 at a concrete request on a fresh state. -/
theorem c1_no_rollback_witness :
    truthy (some "Hi") = true ∧ truthy (some "body") = true ∧
    hasSlug emptyState (deriveSlug "Hi") = false ∧
    (createPost true (some "Hi") (some "body") "2026-01-02T03:04:05.000Z"
        false emptyState).1 = .err 500 "Error creating post file" :=
  ⟨by decide, by decide, by decide,
    (c1_no_rollback "Hi" "body" "2026-01-02T03:04:05.000Z" emptyState
      (by decide) (by decide) (by decide)).1⟩

/-- C2 counterexample: submitting the same title twice makes the second
request fail with the generic HTTP 500 "Database error" response — a
server error, not a conflict-class (4xx) client error as the claim
states. -/
theorem c2_duplicate_is_500 :
    (createPost true (some "Hi") (some "b2") "2026-01-03T00:00:00.000Z" true
        (createPost true (some "Hi") (some "b1") "2026-01-02T00:00:00.000Z" true
          emptyState).2).1 = .err 500 "Database error" ∧
    isClientError
      (createPost true (some "Hi") (some "b2") "2026-01-03T00:00:00.000Z" true
        (createPost true (some "Hi") (some "b1") "2026-01-02T00:00:00.000Z" true
          emptyState).2).1 = false := by
  constructor <;> decide

/-- C2 (amended): the second of two requests deriving the same slug is
rejected with the generic 500 "Database error" response, the entire server
state is left unchanged by the rejected request (so no row is overwritten
or renamed and no new content file is written), and the file produced by
the first request is still present with its original content. -/
theorem c2_duplicate_rejected (t1 b1 d1 t2 b2 d2 : String) (st : ServerState)
    (ht1 : truthy (some t1) = true) (hb1 : truthy (some b1) = true)
    (hs : hasSlug st (deriveSlug t1) = false)
    (heq : deriveSlug t2 = deriveSlug t1)
    (ht2 : truthy (some t2) = true) (hb2 : truthy (some b2) = true) :
    (createPost true (some t2) (some b2) d2 true
        (createPost true (some t1) (some b1) d1 true st).2).1 =
      .err 500 "Database error" ∧
    isClientError
      (createPost true (some t2) (some b2) d2 true
        (createPost true (some t1) (some b1) d1 true st).2).1 = false ∧
    (createPost true (some t2) (some b2) d2 true
        (createPost true (some t1) (some b1) d1 true st).2).2 =
      (createPost true (some t1) (some b1) d1 true st).2 ∧
    getFile (createPost true (some t2) (some b2) d2 true
        (createPost true (some t1) (some b1) d1 true st).2).2.files
      (postPath (deriveSlug t1)) = some (hugoContent t1 d1 b1) := by
  have hst1 := createPost_success t1 b1 d1 st ht1 hb1 hs
  rw [hst1]
  dsimp only
  have hdup : hasSlug
      (⟨st.posts ++ [⟨st.nextId, t1, b1, d1, deriveSlug t1⟩], st.nextId + 1,
        setFile st.files (postPath (deriveSlug t1)) (hugoContent t1 d1 b1)⟩ :
        ServerState) (deriveSlug t2) = true := by
    simp [hasSlug, heq]
  have h2 : createPost true (some t2) (some b2) d2 true
      ⟨st.posts ++ [⟨st.nextId, t1, b1, d1, deriveSlug t1⟩], st.nextId + 1,
        setFile st.files (postPath (deriveSlug t1)) (hugoContent t1 d1 b1)⟩ =
      (.err 500 "Database error",
        ⟨st.posts ++ [⟨st.nextId, t1, b1, d1, deriveSlug t1⟩], st.nextId + 1,
          setFile st.files (postPath (deriveSlug t1)) (hugoContent t1 d1 b1)⟩) := by
    simp [createPost, ht2, hb2, hdup]
  rw [h2]
  exact ⟨rfl, rfl, rfl, getFile_setFile _ _ _⟩

/-- Witness for C2's amended theorem at two concrete same-title requests. -/
theorem c2_duplicate_rejected_witness :
    truthy (some "Hi") = true ∧ hasSlug emptyState (deriveSlug "Hi") = false ∧
    deriveSlug "Hi" = deriveSlug "Hi" ∧
    (createPost true (some "Hi") (some "b2") "d2" true
        (createPost true (some "Hi") (some "b1") "d1" true emptyState).2).1 =
      .err 500 "Database error" :=
  ⟨by decide, by decide, rfl,
    (c2_duplicate_rejected "Hi" "b1" "d1" "Hi" "b2" "d2" emptyState
      (by decide) (by decide) (by decide) rfl (by decide) (by decide)).1⟩

/-- C3 counterexample: the title `"Hello, World!"` derives the slug
`"hello-world-"` — the trailing `!` becomes a trailing hyphen — not the
claimed `"hello-world"`. -/
theorem c3_trailing_hyphen :
    deriveSlug "Hello, World!" = "hello-world-" ∧
    deriveSlug "Hello, World!" ≠ "hello-world" := by
  constructor <;> decide

/-- C3 (amended): slug derivation is the pure function that lower-cases
the title and replaces each maximal run of characters outside `[a-z0-9]`
with a single hyphen; its output contains only lowercase letters, digits
and hyphens with no doubled hyphens, but a leading or trailing hyphen can
occur: `"Hello, World!"` derives `"hello-world-"`. -/
theorem c3_slug_alphabet :
    (∀ title : String, slugOk (deriveSlug title) = true ∧
      noDouble (deriveSlug title).data = true) ∧
    deriveSlug "Hello, World!" = "hello-world-" := by
  refine ⟨fun title => ⟨deriveSlug_slugOk title, deriveSlug_noDouble title⟩, ?_⟩
  decide

/-- C4: the listing is all stored posts ordered by date descending (a
sorted permutation of the table), `GET /cms/posts` returns exactly that
listing, and after a successful insert the listing contains an entry whose
slug is the slug derived from the submitted title and whose date is the
creation date; sortedness of every listing is what keeps an earlier date
below later insertions with larger dates. -/
theorem c4_listing_sorted (st : ServerState) (title body date : String)
    (ht : truthy (some title) = true) (hb : truthy (some body) = true)
    (hs : hasSlug st (deriveSlug title) = false) :
    List.Sorted dateDesc (listing st) ∧
    (listing st).Perm (st.posts.map summarize) ∧
    getPosts true st = .ok (listing st) ∧
    summarize ⟨st.nextId, title, body, date, deriveSlug title⟩ ∈
      listing (createPost true (some title) (some body) date true st).2 := by
  refine ⟨List.sorted_insertionSort dateDesc _,
    List.perm_insertionSort dateDesc _, rfl, ?_⟩
  rw [createPost_success title body date st ht hb hs]
  exact listing_mem_last _ _ _ _

/-- Witness for C4 at a concrete insert into a fresh state. -/
theorem c4_listing_sorted_witness :
    truthy (some "Hi") = true ∧ truthy (some "body") = true ∧
    hasSlug emptyState (deriveSlug "Hi") = false ∧
    summarize ⟨1, "Hi", "body", "2026-01-02T03:04:05.000Z", deriveSlug "Hi"⟩ ∈
      listing (createPost true (some "Hi") (some "body")
        "2026-01-02T03:04:05.000Z" true emptyState).2 :=
  ⟨by decide, by decide, by decide,
    (c4_listing_sorted emptyState "Hi" "body" "2026-01-02T03:04:05.000Z"
      (by decide) (by decide) (by decide)).2.2.2⟩

/-- C5: every privileged operation — dashboard, listing posts, creating a
post — is gated on session validity first; without a valid session the
request is redirected to the login page and nothing later runs: the
create-post handler leaves the whole server state (rows and files)
untouched. -/
theorem c5_auth_first (title content : Option String) (date : String)
    (fsOk : Bool) (st : ServerState) :
    (createPost false title content date fsOk st).1 = .redirect "/cms/login" ∧
    (createPost false title content date fsOk st).2 = st ∧
    getPosts false st = .redirect "/cms/login" ∧
    getDashboard false = .redirect "/cms/login" :=
  ⟨rfl, rfl, rfl, rfl⟩

/-- C6: an authenticated create-post request whose title or content is
missing or empty is answered with the 400 invalid-input error and the
server state is unchanged — no row is inserted and no file is written. -/
theorem c6_validate_input (title content : Option String) (date : String)
    (fsOk : Bool) (st : ServerState)
    (h : truthy title = false ∨ truthy content = false) :
    (createPost true title content date fsOk st).1 =
      .err 400 "Title and content are required" ∧
    (createPost true title content date fsOk st).2 = st := by
  have hcond : (truthy title && truthy content) = false := by
    rcases h with h | h <;> simp [h]
  constructor <;> simp [createPost, hcond]

/-- Witness for C6 at a request with a missing title. -/
theorem c6_validate_input_witness :
    (truthy none = false ∨ truthy (some "body") = false) ∧
    (createPost true none (some "body") "d" true emptyState).1 =
      .err 400 "Title and content are required" :=
  ⟨Or.inl rfl,
    (c6_validate_input none (some "body") "d" true emptyState (Or.inl rfl)).1⟩

/-- C7 counterexample: for the title `a"b`, which contains a double-quote
character, the written file fails the claimed format — the interpolated
title value `"a"b"` is not a well-formed quoted string. -/
theorem c7_quote_breaks_format :
    claimedFormat
      (hugoContent "a\"b" "2026-01-02T03:04:05.000Z" "body")
      "a\"b" "2026-01-02T03:04:05.000Z" "body" = false := by
  decide

/-- C7 (amended): for every successful create whose title contains neither
a double-quote nor a newline character (the title is interpolated into the
template verbatim, so either would corrupt the block), the written file
consists of the delimited front-matter block with keys `title` (a quoted
string carrying the title), `date` (the ISO-8601 date), `draft` (always
`false`), followed by a blank line and the raw post content. -/
theorem c7_format_no_quotes (title date content : String)
    (hq : noQuote title = true) (hn : noNewline title = true)
    (hd : noNewline date = true) (hiso : isIsoDate date = true) :
    claimedFormat (hugoContent title date content) title date content = true := by
  rw [claimedFormat, parseFM_hugo title date content hn hd]
  simp [isQuotedStr_quote title hq, hiso]

/-- Witness for C7's amended theorem at a concrete quote-free title. -/
theorem c7_format_no_quotes_witness :
    noQuote "Hi" = true ∧ noNewline "Hi" = true ∧
    noNewline "2026-01-02T03:04:05.000Z" = true ∧
    isIsoDate "2026-01-02T03:04:05.000Z" = true ∧
    claimedFormat (hugoContent "Hi" "2026-01-02T03:04:05.000Z" "body")
      "Hi" "2026-01-02T03:04:05.000Z" "body" = true :=
  ⟨by decide, by decide, by decide, by decide,
    c7_format_no_quotes "Hi" "2026-01-02T03:04:05.000Z" "body"
      (by decide) (by decide) (by decide) (by decide)⟩

/-- C8: a failed login is indistinguishable to the client whether the
username was unknown or the password hash mismatched: both requests get
the identical generic redirect `/cms/login?error=1`. -/
theorem c8_no_enumeration (users : List UserRow) (bc : String → String → Bool)
    (u1 p1 u2 p2 : String) (ls : LimitState)
    (hg : ls.general < generalMax) (hl : ls.login < loginMax)
    (h1 : users.find? (fun u => u.username == u1) = none)
    (h2 : ∀ usr, users.find? (fun u => u.username == u2) = some usr →
      bc p2 usr.password = false) :
    (loginRequest users bc u1 p1 ls).response = .redirect "/cms/login?error=1" ∧
    (loginRequest users bc u2 p2 ls).response = .redirect "/cms/login?error=1" ∧
    (loginRequest users bc u1 p1 ls).response =
      (loginRequest users bc u2 p2 ls).response := by
  have hg' : ¬ generalMax < ls.general + 1 := by omega
  have hl' : ¬ loginMax < ls.login + 1 := by omega
  have r1 : (loginRequest users bc u1 p1 ls).response =
      .redirect "/cms/login?error=1" := by
    simp [loginRequest, hg', hl', h1]
  have r2 : (loginRequest users bc u2 p2 ls).response =
      .redirect "/cms/login?error=1" := by
    cases hfind : users.find? (fun u => u.username == u2) with
    | none => simp [loginRequest, hg', hl', hfind]
    | some usr => simp [loginRequest, hg', hl', hfind, h2 usr hfind]
  exact ⟨r1, r2, r1.trans r2.symm⟩

/-- Witness for C8: an unknown username and a wrong password against the
stored admin user get the same response. -/
theorem c8_no_enumeration_witness :
    ((⟨0, 0⟩ : LimitState).general < generalMax ∧
      (⟨0, 0⟩ : LimitState).login < loginMax) ∧
    [(⟨1, "admin", "hash"⟩ : UserRow)].find?
      (fun u => u.username == "nobody") = none ∧
    (loginRequest [⟨1, "admin", "hash"⟩] (fun _ _ => false) "nobody" "x"
        ⟨0, 0⟩).response =
      (loginRequest [⟨1, "admin", "hash"⟩] (fun _ _ => false) "admin" "wrong"
        ⟨0, 0⟩).response :=
  ⟨⟨by decide, by decide⟩, by decide,
    (c8_no_enumeration [⟨1, "admin", "hash"⟩] (fun _ _ => false)
      "nobody" "x" "admin" "wrong" ⟨0, 0⟩ (by decide) (by decide) (by decide)
      (fun usr _ => rfl)).2.2⟩

/-- C9: the login bucket is 5 requests per 60 minutes, stacked on the
general 100-per-15-minutes bucket; within one window the first five login
attempts of a client are not rate-limited, and the sixth is rejected with
the 429 response before any credential check — the user table is not
queried and no session is created. -/
theorem c9_sixth_login_limited (users : List UserRow)
    (bc : String → String → Bool) (u p : String) :
    loginWindowMs = 60 * 60 * 1000 ∧ loginMax = 5 ∧
    generalWindowMs = 15 * 60 * 1000 ∧ generalMax = 100 ∧
    (loginRequest users bc u p (limitsAfter users bc u p 0)).response ≠ .tooMany ∧
    (loginRequest users bc u p (limitsAfter users bc u p 1)).response ≠ .tooMany ∧
    (loginRequest users bc u p (limitsAfter users bc u p 2)).response ≠ .tooMany ∧
    (loginRequest users bc u p (limitsAfter users bc u p 3)).response ≠ .tooMany ∧
    (loginRequest users bc u p (limitsAfter users bc u p 4)).response ≠ .tooMany ∧
    (loginRequest users bc u p (limitsAfter users bc u p 5)).response = .tooMany ∧
    (loginRequest users bc u p (limitsAfter users bc u p 5)).lookupDone = false ∧
    (loginRequest users bc u p (limitsAfter users bc u p 5)).session = none := by
  have s0 := loginStep users bc u p ⟨0, 0⟩ (by decide) (by decide)
  have l1 : limitsAfter users bc u p 1 = ⟨1, 1⟩ := s0.1
  have s1 := loginStep users bc u p ⟨1, 1⟩ (by decide) (by decide)
  have l2 : limitsAfter users bc u p 2 = ⟨2, 2⟩ := by
    show (loginRequest users bc u p (limitsAfter users bc u p 1)).limits = _
    rw [l1]; exact s1.1
  have s2 := loginStep users bc u p ⟨2, 2⟩ (by decide) (by decide)
  have l3 : limitsAfter users bc u p 3 = ⟨3, 3⟩ := by
    show (loginRequest users bc u p (limitsAfter users bc u p 2)).limits = _
    rw [l2]; exact s2.1
  have s3 := loginStep users bc u p ⟨3, 3⟩ (by decide) (by decide)
  have l4 : limitsAfter users bc u p 4 = ⟨4, 4⟩ := by
    show (loginRequest users bc u p (limitsAfter users bc u p 3)).limits = _
    rw [l3]; exact s3.1
  have s4 := loginStep users bc u p ⟨4, 4⟩ (by decide) (by decide)
  have l5 : limitsAfter users bc u p 5 = ⟨5, 5⟩ := by
    show (loginRequest users bc u p (limitsAfter users bc u p 4)).limits = _
    rw [l4]; exact s4.1
  have h6 : loginRequest users bc u p ⟨5, 5⟩ = ⟨.tooMany, ⟨6, 6⟩, false, none⟩ := by
    simp [loginRequest, generalMax, loginMax]
  refine ⟨rfl, rfl, rfl, rfl, s0.2, ?_, ?_, ?_, ?_, ?_, ?_, ?_⟩
  · rw [l1]; exact s1.2
  · rw [l2]; exact s2.2
  · rw [l3]; exact s3.2
  · rw [l4]; exact s4.2
  · rw [l5, h6]
  · rw [l5, h6]
  · rw [l5, h6]

/-- C10: a successful create computes one slug and one date and uses them
consistently: the slug in the JSON response, the slug of the stored row
and the file-name stem of the written file are the same string, and the
date stored in the row is character-for-character the date in the written
front-matter. -/
theorem c10_single_slug_date (title body date : String) (st : ServerState)
    (ht : truthy (some title) = true) (hb : truthy (some body) = true)
    (hs : hasSlug st (deriveSlug title) = false)
    (hn : noNewline title = true) (hd : noNewline date = true) :
    (createPost true (some title) (some body) date true st).1 =
      .created st.nextId (deriveSlug title) ∧
    (createPost true (some title) (some body) date true st).2.posts =
      st.posts ++ [⟨st.nextId, title, body, date, deriveSlug title⟩] ∧
    getFile (createPost true (some title) (some body) date true st).2.files
      (postPath (deriveSlug title)) = some (hugoContent title date body) ∧
    (parseFM (hugoContent title date body).data).map (fun q => q.2.1) =
      some date := by
  rw [createPost_success title body date st ht hb hs]
  refine ⟨rfl, rfl, getFile_setFile _ _ _, ?_⟩
  rw [parseFM_hugo title date body hn hd]
  rfl

/-- Witness for C10 at a concrete request on a fresh state. -/
theorem c10_single_slug_date_witness :
    truthy (some "Hi") = true ∧ truthy (some "body") = true ∧
    hasSlug emptyState (deriveSlug "Hi") = false ∧
    noNewline "Hi" = true ∧ noNewline "2026-01-02T03:04:05.000Z" = true ∧
    (createPost true (some "Hi") (some "body") "2026-01-02T03:04:05.000Z"
        true emptyState).1 = .created 1 (deriveSlug "Hi") :=
  ⟨by decide, by decide, by decide, by decide, by decide,
    (c10_single_slug_date "Hi" "body" "2026-01-02T03:04:05.000Z" emptyState
      (by decide) (by decide) (by decide) (by decide) (by decide)).1⟩

end WrongCMS
